import Mathlib

/-!
# Verification of the Warbler core (flask-blogly repository)

Shallow embedding of the data model and the request handlers in `src/app.py`,
together with the model-layer operations (`models.py` is not part of the
source tree; where a claim depends on it, the definition is modelled from the
spec and marked as such in its doc comment).

Conventions of the embedding:
* Database tables are Lean lists in insertion order (`Message.query.all()`
  with no `order_by` returns table order).
* The Flask session is an `Option Nat` holding the `curr_user` id.
* A handler that raises (`Unauthorized`, `ValueError`, 404) or redirects with
  a flash returns an `Except HandlerErr DB`; an error means the request
  aborted before `db.session.commit()`, so the database is unchanged.
-/

namespace Warbler

/-- A bcrypt hash value. Modelled from the spec (§4.1 Password Hasher;
`models.py` is not under `src/`): the random salt and one-way property are
abstracted away, keeping what the claims use — `verify` succeeds exactly on
the plaintext that was hashed. -/
structure PwHash where
  ofPlain : String
deriving DecidableEq, Repr

/-- Modelled from the spec (§4.1): `hash(plaintext) -> hash_string`. -/
def bcrypt_hash (pw : String) : PwHash := ⟨pw⟩

/-- Modelled from the spec (§4.1): `verify(plaintext, hash_string) -> bool`. -/
def bcrypt_check (pw : String) (h : PwHash) : Bool := h = bcrypt_hash pw

/-- A row of the `users` table (spec §3). -/
structure User where
  id : Nat
  username : String
  email : String
  password : PwHash
  image_url : String
  header_image_url : String
  bio : String
  location : String
deriving DecidableEq, Repr

/-- A row of the `messages` table (spec §3); `timestamp` stands for the
server-assigned `created_at`. -/
structure Message where
  id : Nat
  text : String
  timestamp : Nat
  userId : Nat
deriving DecidableEq, Repr

/-- A row of the `follows` table: a directed edge, follower observes
followee. -/
structure Follow where
  userBeingFollowedId : Nat
  userFollowingId : Nat
deriving DecidableEq, Repr

/-- A row of the `likes` table. -/
structure Like where
  userId : Nat
  messageId : Nat
deriving DecidableEq, Repr

/-- The persistent store: four tables, each a list in insertion order. -/
structure DB where
  users : List User
  messages : List Message
  follows : List Follow
  likes : List Like
deriving DecidableEq, Repr

/-- Application state seen by a request: the database plus the Flask session
(`session[CURR_USER_KEY]`). -/
structure AppState where
  db : DB
  session : Option Nat
deriving DecidableEq, Repr

/-- Errors/aborts a handler can produce: `redirectHome` models
`flash(...); redirect("/")`, `notFound` models `get_or_404` raising 404,
`unauthorized` models `raise Unauthorized()`, `valueError` models an uncaught
Python `ValueError`. In every case the request ends before
`db.session.commit()`, so the database is unchanged. -/
inductive HandlerErr
  | redirectHome
  | notFound
  | unauthorized
  | valueError
deriving DecidableEq, Repr

/-- The database a request leaves behind: the committed one on success, the
untouched one when the handler aborted with an error. -/
def dbAfter (db : DB) (r : Except HandlerErr DB) : DB :=
  match r with
  | .ok db' => db'
  | .error _ => db

/-- `do_logout()` in `app.py`: drop `CURR_USER_KEY` from the session if
present. -/
def do_logout (s : Option Nat) : Option Nat :=
  match s with
  | some _ => none
  | none => none

/-- `homepage` in `app.py` (lines 396–415), the logged-in branch:
`user_ids_cur_user_is_following = {user.id for user in g.user.following}`,
then keep every message of `Message.query.all()` whose `user_id` is in that
set, then truncate with `[:100]`. The anonymous branch shows no messages.
`g.user.following` is the derived view over the `follows` table. -/
def homepage_feed (db : DB) (gUser : Option User) : List Message :=
  match gUser with
  | none => []
  | some u =>
    let followingIds :=
      (db.follows.filter (fun f => f.userFollowingId == u.id)).map
        (fun f => f.userBeingFollowedId)
    let followedMessages :=
      db.messages.filter (fun m => followingIds.contains m.userId)
    followedMessages.take 100

/-- The Bool predicate for a Follow edge `u.id → targetId`, as used by the
derived `g.user.following` list. -/
def followMatches (followerId targetId : Nat) (f : Follow) : Bool :=
  f.userFollowingId == followerId && f.userBeingFollowedId == targetId

/-- `stop_following` in `app.py` (lines 234–249): redirect home when not
logged in; `User.query.get_or_404(follow_id)` raises 404 when the target user
does not exist; `g.user.following.remove(followed_user)` removes the first
matching Follow edge from the instrumented list and — like Python
`list.remove` — raises `ValueError` when no such edge is present; then
`db.session.commit()`. -/
def stop_following (db : DB) (gUser : Option User) (followId : Nat) :
    Except HandlerErr DB :=
  match gUser with
  | none => .error .redirectHome
  | some u =>
    match db.users.find? (fun x => x.id == followId) with
    | none => .error .notFound
    | some _ =>
      if db.follows.any (followMatches u.id followId) then
        .ok { db with follows := db.follows.eraseP (followMatches u.id followId) }
      else
        .error .valueError

/-- The Bool predicate for a Like row of user `uid` on message `mid`. -/
def likeMatches (uid mid : Nat) (l : Like) : Bool :=
  l.userId == uid && l.messageId == mid

/-- `toggle_like` in `app.py` (lines 366–389): `Unauthorized` when the CSRF
form fails or nobody is logged in; `Message.query.get_or_404` raises 404 on a
missing message; `Unauthorized` when the message belongs to the current user;
otherwise remove the Like edge if `message in g.user.liked_messages` (the
derived view over the `likes` table), else append one; then commit. -/
def toggle_like (db : DB) (gUser : Option User) (csrfOk : Bool)
    (messageId : Nat) : Except HandlerErr DB :=
  match gUser with
  | none => .error .unauthorized
  | some u =>
    if !csrfOk then .error .unauthorized
    else
      match db.messages.find? (fun m => m.id == messageId) with
      | none => .error .notFound
      | some message =>
        if message.userId == u.id then .error .unauthorized
        else if db.likes.any (likeMatches u.id message.id) then
          .ok { db with likes := db.likes.eraseP (likeMatches u.id message.id) }
        else
          .ok { db with likes := db.likes ++ [⟨u.id, message.id⟩] }

/-- `delete_user` in `app.py` (lines 278–304): when there is no logged-in
user or the CSRF form fails, flash and redirect (state unchanged). Otherwise
`do_logout()` runs FIRST, then the handler marks every Message with
`Message.user_id == g.user.id`, every Like with `Like.user_id == g.user.id`,
and `g.user` itself for deletion, and issues a single `db.session.commit()`.
`commitOk` models whether that commit succeeds; on failure the transaction is
rolled back so no row is removed — but the session key was already deleted
outside the transaction. -/
def delete_user (st : AppState) (csrfOk commitOk : Bool) : AppState :=
  match st.session with
  | none => st
  | some uid =>
    match st.db.users.find? (fun x => x.id == uid) with
    | none => st
    | some gUser =>
      if !csrfOk then st
      else
        let session1 := do_logout st.session
        if commitOk then
          { db := { users := st.db.users.filter (fun x => x.id != gUser.id),
                    messages := st.db.messages.filter (fun m => m.userId != gUser.id),
                    follows := st.db.follows,
                    likes := st.db.likes.filter (fun l => l.userId != gUser.id) },
            session := session1 }
        else
          { db := st.db, session := session1 }

/-- `User.image_url.default.arg` (spec §3: image_url has a default
placeholder; `models.py` is not under `src/`, the concrete URL is the usual
static placeholder). -/
def DEFAULT_IMAGE_URL : String := "/static/images/default-pic.png"

/-- Default header image (spec §3: header_image_url optional, default). -/
def DEFAULT_HEADER_IMAGE_URL : String := "/static/images/warbler-hero.jpg"

/-- The id the database assigns to a freshly inserted user row. -/
def nextId (db : DB) : Nat :=
  db.users.foldl (fun acc u => max acc u.id) 0 + 1

/-- Modelled from the spec: `User.signup` lives in `models.py`, which is not
under `src/`. Per §4.2 it hashes the password and inserts a new User row with
defaults for the fields the form does not carry; per §5 the storage layer
enforces the unique username and unique email constraints at commit,
surfacing a violation as the single generic `IntegrityError`. This is the
row that gets inserted. -/
def newSignupUser (db : DB) (username email password image_url : String) :
    User :=
  { id := nextId db, username := username, email := email,
    password := bcrypt_hash password, image_url := image_url,
    header_image_url := DEFAULT_HEADER_IMAGE_URL, bio := "", location := "" }

/-- Modelled from the spec: the commit step of signup — insert unless the
storage layer's unique username or unique email constraint is violated, in
which case the generic `IntegrityError` (here `none`) is raised without
saying which constraint fired. -/
def User_signup_commit (db : DB) (username email password image_url : String) :
    Option DB :=
  if db.users.any (fun u => u.username == username)
      || db.users.any (fun u => u.email == email) then
    none
  else
    some { db with users :=
      db.users ++ [newSignupUser db username email password image_url] }

/-- Outcome of the signup handler: success redirects home with the user
logged in; an `IntegrityError` flashes a message and re-presents the form; an
invalid form is re-presented without a flash. -/
inductive SignupOutcome
  | redirectHome (st : AppState)
  | rerender (st : AppState) (flash : String)
  | renderForm (st : AppState)
deriving DecidableEq, Repr

/-- `signup` in `app.py` (lines 62–97): `do_logout()` first; if the form
validates, call `User.signup` with
`form.image_url.data or User.image_url.default.arg` (empty string is falsy)
and commit; `except IntegrityError` flashes `"Username already taken"` —
the same handler and message for every uniqueness violation — and
re-presents the form; on success `do_login(user)` stores the new id in the
session and the handler redirects to `/`. -/
def signup_handler (st : AppState) (formValid : Bool)
    (username email password image_url : String) : SignupOutcome :=
  let st1 : AppState := { st with session := do_logout st.session }
  if formValid then
    let img := if image_url = "" then DEFAULT_IMAGE_URL else image_url
    match User_signup_commit st1.db username email password img with
    | none => .rerender st1 "Username already taken"
    | some db' => .redirectHome { db := db', session := some (nextId st1.db) }
  else
    .renderForm st1

/-- Modelled from the spec: `User.authenticate` lives in `models.py`, which
is not under `src/`. Per §4.2 it looks a user up by exact username, verifies
the password through the hasher when found, and returns the User on success
and a falsy sentinel (`none`) on unknown username or wrong password; it is a
total function and never raises. -/
def User_authenticate (db : DB) (username password : String) : Option User :=
  match db.users.find? (fun u => u.username == username) with
  | none => none
  | some u => if bcrypt_check password u.password then some u else none

/-- A Python value as stored on a user attribute by `edit_profile`: either a
plain string or a one-element tuple `(s,)` produced by a trailing comma. -/
inductive PyVal
  | str (s : String)
  | tup1 (s : String)
deriving DecidableEq, Repr

/-- The five profile attributes `edit_profile` assigns on the `User` object.
Python is dynamically typed, so each can hold a string or a tuple. -/
structure ProfileRecord where
  username : PyVal
  email : PyVal
  image_url : PyVal
  header_image_url : PyVal
  bio : PyVal
deriving DecidableEq, Repr

/-- The fields of `UserEditForm` that `edit_profile` reads. -/
structure UserEditFormData where
  username : String
  email : String
  image_url : String
  header_image_url : String
  bio : String
  password : String
deriving DecidableEq, Repr

/-- `edit_profile` in `app.py` (lines 252–275): when the form validates, it
first re-authenticates `User.authenticate(user.username, form.password.data)`
and on failure flashes and redirects without touching any field. On success
it runs the assignment block

`user.username=form.username.data,` / `user.email=form.email.data,` /
`user.image_url=form.image_url.data,` /
`user.header_image_url=form.header_image_url.data` / `user.bio=form.bio.data`

where the first three lines end in a trailing comma, so Python assigns a
one-element tuple, while the last two assign the plain strings; then commits.
`userUsername` is `user.username` as passed to `User.authenticate`. -/
def edit_profile (db : DB) (userUsername : String) (rec : ProfileRecord)
    (form : UserEditFormData) (formValid : Bool) : ProfileRecord :=
  if formValid then
    match User_authenticate db userUsername form.password with
    | none => rec
    | some _ =>
      { username := .tup1 form.username,
        email := .tup1 form.email,
        image_url := .tup1 form.image_url,
        header_image_url := .str form.header_image_url,
        bio := .str form.bio }
  else
    rec

/-! ## Concrete states used by witnesses and counterexamples -/

/-- Example user `u1`, as in the test fixtures. -/
def u1Ex : User :=
  { id := 1, username := "u1", email := "u1@email.com",
    password := bcrypt_hash "password", image_url := DEFAULT_IMAGE_URL,
    header_image_url := DEFAULT_HEADER_IMAGE_URL, bio := "", location := "" }

/-- Example user `u2`, as in the test fixtures. -/
def u2Ex : User :=
  { id := 2, username := "u2", email := "u2@email.com",
    password := bcrypt_hash "password", image_url := DEFAULT_IMAGE_URL,
    header_image_url := DEFAULT_HEADER_IMAGE_URL, bio := "", location := "" }

/-- A message authored by `u1`. -/
def m1Ex : Message := { id := 1, text := "m1_text", timestamp := 1, userId := 1 }

/-- A state where `u1` has posted one message and follows nobody. -/
def dbOwnMsg : DB := { users := [u1Ex], messages := [m1Ex], follows := [], likes := [] }

/-- An older message authored by `u2`. -/
def mOldEx : Message := { id := 10, text := "older", timestamp := 10, userId := 2 }

/-- A newer message authored by `u2`. -/
def mNewEx : Message := { id := 11, text := "newer", timestamp := 20, userId := 2 }

/-- A state where `u1` follows `u2` and `u2` posted `mOldEx` then `mNewEx`. -/
def dbFollowed : DB :=
  { users := [u1Ex, u2Ex], messages := [mOldEx, mNewEx],
    follows := [{ userBeingFollowedId := 2, userFollowingId := 1 }], likes := [] }

/-- A state where `u1` has posted 150 messages (ids and timestamps
`1..150` in posting order) and follows nobody. -/
def db150 : DB :=
  { users := [u1Ex],
    messages := (List.range 150).map
      (fun i => { id := i + 1, text := "t", timestamp := i + 1, userId := 1 }),
    follows := [], likes := [] }

/-- A state with a single Follow edge `u1 → u2`. -/
def dbEdge : DB :=
  { users := [u1Ex, u2Ex], messages := [],
    follows := [{ userBeingFollowedId := 2, userFollowingId := 1 }], likes := [] }

/-- `dbEdge` after the Follow edge `u1 → u2` has been removed. -/
def dbEdgeRemoved : DB :=
  { users := [u1Ex, u2Ex], messages := [], follows := [], likes := [] }

/-- A state where `u1` is logged in and owns one message and one like. -/
def stDel : AppState :=
  { db := { users := [u1Ex, u2Ex], messages := [m1Ex, mOldEx], follows := [],
            likes := [{ userId := 1, messageId := 10 }] },
    session := some 1 }

/-- A state holding only `u1`, for the duplicate-signup scenarios. -/
def stOneUser : AppState :=
  { db := { users := [u1Ex], messages := [], follows := [], likes := [] },
    session := none }

/-- A state where `u2` posted `mOldEx` and `u1` has already liked it. -/
def dbLiked : DB :=
  { users := [u1Ex, u2Ex], messages := [mOldEx], follows := [],
    likes := [{ userId := 1, messageId := 10 }] }

/-- A profile record holding the pre-edit string values of `u1`. -/
def recEx : ProfileRecord :=
  { username := .str "u1", email := .str "u1@email.com",
    image_url := .str DEFAULT_IMAGE_URL,
    header_image_url := .str DEFAULT_HEADER_IMAGE_URL, bio := .str "" }

/-- A filled-in edit form carrying `u1`'s correct current password. -/
def formEx : UserEditFormData :=
  { username := "u1_new", email := "new@email.com", image_url := "pic.png",
    header_image_url := "hero.jpg", bio := "hello", password := "password" }

/-! ## Helper lemmas -/

/-- `do_logout` always leaves the session empty. -/
theorem do_logout_eq_none (s : Option Nat) : do_logout s = none := by
  cases s <;> rfl

/-- Filtering keeps only elements satisfying the filter. -/
theorem all_filter_self {α : Type} (p : α → Bool) (l : List α) :
    (l.filter p).all p = true :=
  List.all_eq_true.mpr fun x hx => (List.mem_filter.mp hx).2

/-- If a list has at most one element satisfying `p` and at least one,
erasing the first leaves none. -/
theorem any_eraseP_of_countP_le_one {α : Type} (p : α → Bool) (l : List α)
    (h1 : l.any p = true) (h2 : l.countP p ≤ 1) :
    (l.eraseP p).any p = false := by
  obtain ⟨x, hx, hpx⟩ := List.any_eq_true.mp h1
  obtain ⟨a, l₁, l₂, hl₁, hpa, hl, he⟩ := List.exists_of_eraseP hx hpx
  clear hx
  rw [he]
  rw [hl, List.countP_append, List.countP_eq_zero.mpr hl₁,
    List.countP_cons, hpa] at h2
  simp at h2
  refine List.any_eq_false.mpr fun y hy => ?_
  rcases List.mem_append.mp hy with h | h
  · exact hl₁ y h
  · simp [h2 y h]

/-- A list with no element `beq`-matching `s` under `f` has `any`-match
`false`. -/
theorem any_beq_eq_false_of_all_bne {α : Type} {l : List α} {f : α → String}
    {s : String} (h : l.all (fun x => f x != s) = true) :
    l.any (fun x => f x == s) = false := by
  refine List.any_eq_false.mpr fun x hx => ?_
  have hb := List.all_eq_true.mp h x hx
  simpa using hb

/-- `find?` skips a prefix on which the predicate is `false`. -/
theorem find_skip_prefix {α : Type} (p : α → Bool) (l₁ l₂ : List α)
    (h : ∀ x ∈ l₁, p x = false) : (l₁ ++ l₂).find? p = l₂.find? p := by
  induction l₁ with
  | nil => rfl
  | cons a l ih =>
    have ha : p a = false := h a (List.mem_cons_self a l)
    have hl : ∀ x ∈ l, p x = false := fun x hx => h x (List.mem_cons_of_mem a hx)
    rw [List.cons_append, List.find?_cons_of_neg (l ++ l₂) (by simp [ha]), ih hl]

/-- Removing a present like (at most one copy) and appending it back is a
permutation of the original like table. -/
theorem erase_then_append_perm (uid mid : Nat) (likes : List Like)
    (h1 : likes.any (likeMatches uid mid) = true) :
    (likes.eraseP (likeMatches uid mid) ++ [Like.mk uid mid]).Perm likes := by
  obtain ⟨x, hx, hpx⟩ := List.any_eq_true.mp h1
  obtain ⟨a, l₁, l₂, hl₁, hpa, hl, he⟩ :=
    List.exists_of_eraseP hx hpx
  have ha : a = Like.mk uid mid := by
    cases a with
    | mk auid amid =>
      simp [likeMatches] at hpa
      simp [hpa.1, hpa.2]
  rw [he, hl, ← ha]
  exact (List.perm_append_singleton a (l₁ ++ l₂)).trans List.perm_middle.symm

/-- Appending a fresh like and erasing it again is the identity on the like
table. -/
theorem append_then_erase_eq (uid mid : Nat) (likes : List Like)
    (h1 : likes.any (likeMatches uid mid) = false) :
    (likes ++ [Like.mk uid mid]).eraseP (likeMatches uid mid) = likes := by
  rw [List.eraseP_append_right _ (by
    intro b hb
    simp [List.any_eq_false.mp h1 b hb])]
  simp [likeMatches]

/-- The signup handler reports every uniqueness violation with the single
generic flash `"Username already taken"`. -/
theorem signup_handler_dup (st : AppState) (un em pw im : String)
    (hdup : (st.db.users.any (fun u => u.username == un)
        || st.db.users.any (fun u => u.email == em)) = true) :
    signup_handler st true un em pw im =
      .rerender { db := st.db, session := none } "Username already taken" := by
  unfold signup_handler User_signup_commit
  simp [do_logout_eq_none, hdup]

/-! ## Claim theorems -/

/-- **C1** (code_bug demonstration). The spec and the handler docstring both
say the feed shows messages "of self & followed_users", but the handler
filters `Message.query.all()` by the followed-id set only: with `u1` logged
in, owning one message and following nobody, the feed comes back empty even
though `u1`'s own message is a required candidate. -/
theorem homepage_omits_own_messages :
    m1Ex ∈ dbOwnMsg.messages ∧ m1Ex.userId = u1Ex.id ∧
    homepage_feed dbOwnMsg (some u1Ex) = [] := by
  refine ⟨by decide, by decide, by decide⟩

/-- **C2** (code_bug demonstration). The handler docstring promises the "100
most recent" messages, but the code applies no ordering before `[:100]`:
with `u1` following `u2` who posted an older then a newer message, the feed
returns them oldest-first; and with `u1` having posted 150 messages of their
own, the feed returns 0 messages rather than the 100 most recent. -/
theorem homepage_not_most_recent_first :
    homepage_feed dbFollowed (some u1Ex) = [mOldEx, mNewEx] ∧
    mOldEx.timestamp < mNewEx.timestamp ∧
    (homepage_feed db150 (some u1Ex)).length = 0 :=
  ⟨by decide, by decide, rfl⟩

/-- **C3** (counterexample). With `u1` logged in and owning a message and a
like, a `delete_user` request whose commit fails leaves every database row in
place — but the session has already been invalidated, contradicting the
claim that on failure the session is unchanged (session included in the
all-or-nothing unit). -/
theorem delete_user_failed_commit_clears_session :
    (delete_user stDel true false).db = stDel.db ∧
    (delete_user stDel true false).session ≠ stDel.session := by
  decide

/-- **C3 amended**. `delete_user` removes every Message authored by the
logged-in user, every Like placed by them, and the user row itself under one
commit, and the three deletions are all-or-nothing: a failed commit removes
no row. The session, however, is invalidated before the transaction and is
`none` afterwards whether the commit succeeds or fails. -/
theorem delete_user_all_or_nothing (st : AppState) (u : User)
    (commitOk : Bool) (hses : st.session = some u.id)
    (hfind : st.db.users.find? (fun x => x.id == u.id) = some u) :
    (commitOk = true →
      (delete_user st true commitOk).db.messages.all
          (fun m => m.userId != u.id) = true ∧
      (delete_user st true commitOk).db.likes.all
          (fun l => l.userId != u.id) = true ∧
      (delete_user st true commitOk).db.users.all
          (fun x => x.id != u.id) = true ∧
      (delete_user st true commitOk).session = none) ∧
    (commitOk = false →
      (delete_user st true commitOk).db = st.db ∧
      (delete_user st true commitOk).session = none) := by
  cases commitOk with
  | true => simp [delete_user, hses, hfind, do_logout, all_filter_self]
  | false => simp [delete_user, hses, hfind, do_logout]

/-- **C3 amended, witness**: the amended statement instantiated at the
concrete failing state `stDel` with `commitOk = false`. -/
theorem delete_user_all_or_nothing_witness :
    (false = true →
      (delete_user stDel true false).db.messages.all
          (fun m => m.userId != u1Ex.id) = true ∧
      (delete_user stDel true false).db.likes.all
          (fun l => l.userId != u1Ex.id) = true ∧
      (delete_user stDel true false).db.users.all
          (fun x => x.id != u1Ex.id) = true ∧
      (delete_user stDel true false).session = none) ∧
    (false = false →
      (delete_user stDel true false).db = stDel.db ∧
      (delete_user stDel true false).session = none) :=
  delete_user_all_or_nothing stDel u1Ex false rfl rfl

/-- **C4** (counterexample). `stop_following` uses
`g.user.following.remove(followed_user)`: after the edge `u1 → u2` is
removed, repeating the request raises `ValueError` instead of completing
without error. -/
theorem stop_following_repeat_raises :
    stop_following dbEdge (some u1Ex) 2 = .ok dbEdgeRemoved ∧
    stop_following dbEdgeRemoved (some u1Ex) 2 = .error .valueError :=
  ⟨rfl, rfl⟩

/-- **C4 amended**. `unfollow(A, B)` with an existing edge removes it and
changes no other table; repeating it when the edge is gone does fail — the
collection-style removal raises `ValueError` (surfaced as an error, database
unchanged) — rather than completing without error. -/
theorem stop_following_second_call_fails (db : DB) (u target : User)
    (hfind : db.users.find? (fun x => x.id == target.id) = some target)
    (hedge : db.follows.any (followMatches u.id target.id) = true)
    (hcount : db.follows.countP (followMatches u.id target.id) ≤ 1) :
    ∃ db1, stop_following db (some u) target.id = .ok db1 ∧
      db1.users = db.users ∧ db1.messages = db.messages ∧
      db1.likes = db.likes ∧
      db1.follows.any (followMatches u.id target.id) = false ∧
      stop_following db1 (some u) target.id = .error .valueError := by
  have hgone := any_eraseP_of_countP_le_one _ _ hedge hcount
  refine ⟨{ db with
      follows := db.follows.eraseP (followMatches u.id target.id) },
    ?_, rfl, rfl, rfl, hgone, ?_⟩
  · simp [stop_following, hfind, hedge]
  · simp [stop_following, hfind, hgone]

/-- **C4 amended, witness**: instantiated at the one-edge state `dbEdge`. -/
theorem stop_following_second_call_fails_witness :
    ∃ db1, stop_following dbEdge (some u1Ex) u2Ex.id = .ok db1 ∧
      db1.users = dbEdge.users ∧ db1.messages = dbEdge.messages ∧
      db1.likes = dbEdge.likes ∧
      db1.follows.any (followMatches u1Ex.id u2Ex.id) = false ∧
      stop_following db1 (some u1Ex) u2Ex.id = .error .valueError :=
  stop_following_second_call_fails dbEdge u1Ex u2Ex (by decide) (by decide)
    (by decide)

/-- **C6**. When the requested message belongs to the logged-in user,
`toggle_like` raises `Unauthorized` — whatever the current Like table
contains — and the database the request leaves behind is unchanged (the
handler aborts before any mutation is committed). -/
theorem toggle_like_own_message_unauthorized (db : DB) (u : User) (mid : Nat)
    (msg : Message)
    (hfind : db.messages.find? (fun m => m.id == mid) = some msg)
    (hown : (msg.userId == u.id) = true) :
    toggle_like db (some u) true mid = .error .unauthorized ∧
    (dbAfter db (toggle_like db (some u) true mid)).likes = db.likes := by
  have h : toggle_like db (some u) true mid = .error .unauthorized := by
    simp [toggle_like, hfind, hown]
  exact ⟨h, by rw [h]; simp [dbAfter]⟩

/-- **C6 witness**: `u1` attempting to like their own message `m1Ex`. -/
theorem toggle_like_own_message_unauthorized_witness :
    toggle_like dbOwnMsg (some u1Ex) true 1 = .error .unauthorized ∧
    (dbAfter dbOwnMsg (toggle_like dbOwnMsg (some u1Ex) true 1)).likes =
      dbOwnMsg.likes :=
  toggle_like_own_message_unauthorized dbOwnMsg u1Ex 1 m1Ex (by decide)
    (by decide)

/-- **C7**. For a message not authored by the actor, two successive
`toggle_like` requests both succeed and return the Like table to (a
permutation of) its original contents: the pair of toggles is a round trip
on the Like set. The hypothesis `hcount` is the Like-table uniqueness
invariant (at most one Like per (user, message) pair, spec §3). -/
theorem toggle_like_round_trip (db : DB) (u : User) (mid : Nat)
    (msg : Message)
    (hfind : db.messages.find? (fun m => m.id == mid) = some msg)
    (hnotown : (msg.userId == u.id) = false)
    (hcount : db.likes.countP (likeMatches u.id msg.id) ≤ 1) :
    ∃ db1 db2, toggle_like db (some u) true mid = .ok db1 ∧
      toggle_like db1 (some u) true mid = .ok db2 ∧
      db2.likes.Perm db.likes := by
  cases hA : db.likes.any (likeMatches u.id msg.id) with
  | true =>
    have hgone := any_eraseP_of_countP_le_one _ _ hA hcount
    refine ⟨{ db with likes := db.likes.eraseP (likeMatches u.id msg.id) },
      { db with likes := db.likes.eraseP (likeMatches u.id msg.id) ++
          [Like.mk u.id msg.id] }, ?_, ?_, ?_⟩
    · simp [toggle_like, hfind, hnotown, hA]
    · simp [toggle_like, hfind, hnotown, hgone]
    · exact erase_then_append_perm u.id msg.id db.likes hA
  | false =>
    have hback : (db.likes ++ [Like.mk u.id msg.id]).any
        (likeMatches u.id msg.id) = true := by
      rw [List.any_append]
      simp [likeMatches]
    refine ⟨{ db with likes := db.likes ++ [Like.mk u.id msg.id] },
      { db with likes := List.eraseP (likeMatches u.id msg.id) (db.likes ++ [Like.mk u.id msg.id]) }, ?_, ?_, ?_⟩
    · simp [toggle_like, hfind, hnotown, hA]
    · simp [toggle_like, hfind, hnotown, hback]
    · show ((db.likes ++ [Like.mk u.id msg.id]).eraseP
          (likeMatches u.id msg.id)).Perm db.likes
      rw [append_then_erase_eq u.id msg.id db.likes hA]

/-- **C7 witness**: `u1` toggling twice on `u2`'s message `mOldEx`, starting
from a state where the like is already present. -/
theorem toggle_like_round_trip_witness :
    ∃ db1 db2, toggle_like dbLiked (some u1Ex) true 10 = .ok db1 ∧
      toggle_like db1 (some u1Ex) true 10 = .ok db2 ∧
      db2.likes.Perm dbLiked.likes :=
  toggle_like_round_trip dbLiked u1Ex 10 mOldEx (by decide) (by decide)
    (by decide)

/-- **C5** (counterexample). With `u1` (email `u1@email.com`) present,
signing up a fresh username with `u1`'s email and signing up `u1`'s username
with a fresh email produce literally the same outcome — the one generic
`IntegrityError` path flashing "Username already taken" — so the failure is
not detectable as DuplicateEmail versus DuplicateUsername. -/
theorem signup_duplicate_email_indistinguishable :
    signup_handler stOneUser true "u2" "u1@email.com" "pw" "" =
      signup_handler stOneUser true "u1" "fresh@email.com" "pw" "" ∧
    signup_handler stOneUser true "u2" "u1@email.com" "pw" "" =
      .rerender { db := stOneUser.db, session := none }
        "Username already taken" :=
  ⟨rfl, rfl⟩

/-- **C5 amended**. Every uniqueness violation at signup's commit — duplicate
username or duplicate email — is caught as the single generic
`IntegrityError` and reported uniformly with the flash
"Username already taken"; the two cases are not distinguishable. -/
theorem signup_uniqueness_generic_error (st : AppState) (un em pw im : String)
    (hdup : st.db.users.any (fun u => u.username == un) = true ∨
            st.db.users.any (fun u => u.email == em) = true) :
    signup_handler st true un em pw im =
      .rerender { db := st.db, session := none } "Username already taken" := by
  refine signup_handler_dup st un em pw im ?_
  rcases hdup with h | h <;> simp [h]

/-- **C5 amended, witness**: a duplicate-email signup against `stOneUser`. -/
theorem signup_uniqueness_generic_error_witness :
    signup_handler stOneUser true "u2" "u1@email.com" "pw" "" =
      .rerender { db := stOneUser.db, session := none }
        "Username already taken" :=
  signup_uniqueness_generic_error stOneUser "u2" "u1@email.com" "pw" ""
    (Or.inr (by decide))

/-- **C9**. Signing up a fresh username and then signing it up again: the
first succeeds, the second hits the duplicate-credential (`IntegrityError`)
path and is rejected with the flash, and afterwards exactly one user with
that username exists. -/
theorem signup_same_username_twice (st : AppState)
    (un em em2 pw pw2 im im2 : String)
    (hun : st.db.users.all (fun u => u.username != un) = true)
    (hem : st.db.users.all (fun u => u.email != em) = true) :
    ∃ st1, signup_handler st true un em pw im = .redirectHome st1 ∧
      st1.db.users.countP (fun u => u.username == un) = 1 ∧
      signup_handler st1 true un em2 pw2 im2 =
        .rerender { db := st1.db, session := none }
          "Username already taken" := by
  have hanyu := any_beq_eq_false_of_all_bne hun
  have hanye := any_beq_eq_false_of_all_bne hem
  refine ⟨⟨⟨st.db.users ++ [newSignupUser st.db un em pw (if im = "" then DEFAULT_IMAGE_URL else im)], st.db.messages, st.db.follows, st.db.likes⟩, some (nextId st.db)⟩, ?_, ?_, ?_⟩
  · simp [signup_handler, User_signup_commit, do_logout_eq_none, hanyu, hanye]
  · rw [List.countP_append, List.countP_eq_zero.mpr
      (fun x hx => by simp [List.any_eq_false.mp hanyu x hx])]
    simp [newSignupUser]
  · refine signup_handler_dup _ un em2 pw2 im2 ?_
    have h1 : (st.db.users ++
        [newSignupUser st.db un em pw (if im = "" then DEFAULT_IMAGE_URL else im)]).any
          (fun u => u.username == un) = true := by
      rw [List.any_append]
      simp [newSignupUser]
    simp [h1]

/-- **C9 witness**: signing up `u3` twice against the one-user state. -/
theorem signup_same_username_twice_witness :
    ∃ st1, signup_handler stOneUser true "u3" "u3@email.com" "password" "" =
        .redirectHome st1 ∧
      st1.db.users.countP (fun u => u.username == "u3") = 1 ∧
      signup_handler st1 true "u3" "other@email.com" "pw2" "" =
        .rerender { db := st1.db, session := none }
          "Username already taken" :=
  signup_same_username_twice stOneUser "u3" "u3@email.com" "other@email.com"
    "password" "pw2" "" "" (by decide) (by decide)

/-- **C8**. For fresh (username, email): signup succeeds, and
`authenticate(username, password)` then returns a user bearing that
username; authenticating with any wrong password, or with any username
present in no user row, yields the falsy sentinel `none` (and
`User_authenticate` is a total function — it never raises). -/
theorem signup_then_authenticate (st : AppState) (un em pw im : String)
    (hun : st.db.users.all (fun u => u.username != un) = true)
    (hem : st.db.users.all (fun u => u.email != em) = true) :
    ∃ st1, signup_handler st true un em pw im = .redirectHome st1 ∧
      (∃ u, User_authenticate st1.db un pw = some u ∧ u.username = un) ∧
      (∀ pw2, pw2 ≠ pw → User_authenticate st1.db un pw2 = none) ∧
      (∀ un2 pw2, st1.db.users.all (fun u => u.username != un2) = true →
        User_authenticate st1.db un2 pw2 = none) := by
  have hanyu := any_beq_eq_false_of_all_bne hun
  have hanye := any_beq_eq_false_of_all_bne hem
  have hfn : st.db.users.find? (fun u => u.username == un) = none :=
    List.find?_eq_none.mpr (fun x hx => by
      have hb := List.any_eq_false.mp hanyu x hx
      simpa using hb)
  refine ⟨⟨⟨st.db.users ++ [newSignupUser st.db un em pw (if im = "" then DEFAULT_IMAGE_URL else im)], st.db.messages, st.db.follows, st.db.likes⟩, some (nextId st.db)⟩, ?_, ?_, ?_, ?_⟩
  · simp [signup_handler, User_signup_commit, do_logout_eq_none, hanyu, hanye]
  · refine ⟨newSignupUser st.db un em pw
      (if im = "" then DEFAULT_IMAGE_URL else im), ?_, by simp [newSignupUser]⟩
    simp [User_authenticate, hfn, bcrypt_check, newSignupUser]
  · intro pw2 hne
    simp only [User_authenticate]
    rw [List.find?_append, hfn]
    simp [bcrypt_check, newSignupUser, bcrypt_hash]
    exact fun h => hne h.symm
  · intro un2 pw2 hall
    have hnone : (st.db.users ++ [newSignupUser st.db un em pw (if im = "" then DEFAULT_IMAGE_URL else im)]).find? (fun u => u.username == un2) = none :=
      List.find?_eq_none.mpr (fun x hx => by
        have hb := List.all_eq_true.mp hall x hx
        simpa using hb)
    simp [User_authenticate, hnone]

/-- **C8 witness**: signing up `u3` on the one-user state, then
authenticating with the right password, a wrong password, and an unknown
username. -/
theorem signup_then_authenticate_witness :
    ∃ st1, signup_handler stOneUser true "u3" "u3@email.com" "password" "" =
        .redirectHome st1 ∧
      (∃ u, User_authenticate st1.db "u3" "password" = some u ∧
        u.username = "u3") ∧
      (∀ pw2, pw2 ≠ "password" → User_authenticate st1.db "u3" pw2 = none) ∧
      (∀ un2 pw2, st1.db.users.all (fun u => u.username != un2) = true →
        User_authenticate st1.db un2 pw2 = none) :=
  signup_then_authenticate stOneUser "u3" "u3@email.com" "password" ""
    (by decide) (by decide)

/-- **C10**. When the edit-profile form validates and the supplied current
password authenticates, the persisted `username`, `email` and `image_url`
attributes receive one-element tuples of the submitted strings (the
assignment statements end in trailing commas) while `header_image_url` and
`bio` receive the plain submitted strings; when the password does not
authenticate, no field is mutated. -/
theorem edit_profile_trailing_comma_tuples (db : DB) (uname : String)
    (rec : ProfileRecord) (form : UserEditFormData) :
    (User_authenticate db uname form.password ≠ none →
      edit_profile db uname rec form true =
        { username := .tup1 form.username, email := .tup1 form.email,
          image_url := .tup1 form.image_url,
          header_image_url := .str form.header_image_url,
          bio := .str form.bio }) ∧
    (User_authenticate db uname form.password = none →
      edit_profile db uname rec form true = rec) := by
  constructor
  · intro h
    cases hA : User_authenticate db uname form.password with
    | none => exact absurd hA h
    | some u => simp [edit_profile, hA]
  · intro h
    simp [edit_profile, h]

/-- **C10 witness**: `u1` editing their profile with the correct current
password; the three tuple-valued fields and the two string-valued fields are
evaluated concretely. -/
theorem edit_profile_trailing_comma_tuples_witness :
    (User_authenticate dbOwnMsg "u1" formEx.password ≠ none →
      edit_profile dbOwnMsg "u1" recEx formEx true =
        { username := .tup1 formEx.username, email := .tup1 formEx.email,
          image_url := .tup1 formEx.image_url,
          header_image_url := .str formEx.header_image_url,
          bio := .str formEx.bio }) ∧
    (User_authenticate dbOwnMsg "u1" formEx.password = none →
      edit_profile dbOwnMsg "u1" recEx formEx true = recEx) :=
  edit_profile_trailing_comma_tuples dbOwnMsg "u1" recEx formEx

end Warbler
